import Mathlib

/-!
Formal model of the session lifecycle subsystem of the code-review backend.

The embedding mirrors `src/models/session.ts` (the `Session` class) and
`src/config/app.config.ts` (the environment-driven configuration loader).

Modelling conventions:
* JavaScript timestamps (`Date`, `Date.now()`) are milliseconds since the
  epoch, modelled as `Int`; comparing two `Date`s in JS compares these values.
* An optional / possibly-`undefined` field is `Option _`; `none` is
  `undefined`.
* JS truthiness on strings (`!!s`, `s ? a : b`, `x || d`) treats exactly the
  empty string as falsy; on objects (`Date`, enum members, which are
  non-empty strings) every value is truthy, so `x || d` on those is
  `Option.getD`.
* The constructor of `Session` reads the clock twice: once for the default
  `createdAt` (`new Date()`, line 27) and once for the default `expiresAt`
  base (`Date.now()`, line 28).  The two readings are explicit parameters
  `nowCreated` and `nowExpiry`; a monotone clock gives `nowCreated ≤ nowExpiry`.
* `uuidv4()` is modelled by an explicit parameter `fresh`, the string the
  generator returned for this call (UUID strings are never empty).
* `Date.toISOString` prints at exactly millisecond precision and
  `new Date(iso)` reparses the string to the same millisecond, so the ISO
  string in the JSON object is modelled by the millisecond value it denotes.
-/

namespace CodeReview

/-- The `SessionState` string enum of `session.ts`. -/
inductive SessionState where
  | created
  | uploaded
  | analyzing
  | completed
  | error
deriving DecidableEq

/-- Stand-in for the untyped (`any`) `analysisResult` payload; the claims
only inspect presence, absence and equality of the payload. -/
abbrev AnalysisResult := String

/-- The fields of the `Session` class.  `fileName` and `language` are
`Option String` because the constructor assigns `data.fileName!` /
`data.language!`, which is `undefined` when the datum is absent.
`regSessionI` and `analysisResult` are declared but never assigned by the
constructor. -/
structure Session where
  sessionID : String
  regSessionI : Option String
  fileName : Option String
  language : Option String
  state : SessionState
  createdAt : Int
  expiresAt : Int
  filePath : Option String
  analysisResult : Option AnalysisResult
deriving DecidableEq

/-- The `Partial<Session>` argument of the constructor: every field may be
absent. -/
structure SessionData where
  sessionID : Option String := none
  regSessionI : Option String := none
  fileName : Option String := none
  language : Option String := none
  state : Option SessionState := none
  createdAt : Option Int := none
  expiresAt : Option Int := none
  filePath : Option String := none
  analysisResult : Option AnalysisResult := none
deriving DecidableEq

/-- JS `v || d` where `v` is a possibly-`undefined` string: the empty string
is falsy, so it is replaced by the default as well. -/
def jsOrString (v : Option String) (d : String) : String :=
  match v with
  | some s => if s = "" then d else s
  | none => d

/-- JS truthiness of a possibly-`undefined` string (`!!v`). -/
def truthy (v : Option String) : Bool :=
  match v with
  | some s => !s.isEmpty
  | none => false

/-- The `Session` constructor (session.ts lines 22–30).

`nowCreated` is the reading of `new Date()` on line 27, `nowExpiry` the
reading of `Date.now()` on line 28, `fresh` the value `uuidv4()` would
return.  `data.state || CREATED` and the two `Date`-valued defaults use
`Option.getD` because enum members and `Date` objects are always truthy.
`analysisResult` and `regSessionI` are never assigned. -/
def Session.construct (data : SessionData) (fresh : String)
    (nowCreated nowExpiry : Int) : Session :=
  { sessionID := jsOrString data.sessionID fresh
    regSessionI := none
    fileName := data.fileName
    language := data.language
    state := data.state.getD SessionState.created
    createdAt := data.createdAt.getD nowCreated
    expiresAt := data.expiresAt.getD (nowExpiry + 24 * 60 * 60 * 1000)
    filePath := data.filePath
    analysisResult := none }

/-- `validate()` (session.ts lines 32–34):
`!!this.sessionID && !!this.fileName && !this.language`.  Note the negation
on `language`: the method returns `true` only when `language` is falsy. -/
def Session.validate (s : Session) : Bool :=
  !s.sessionID.isEmpty && truthy s.fileName && !(truthy s.language)

/-- `isExpired()` (session.ts lines 36–38): `new Date() > this.expiresAt`,
with the clock reading made an explicit parameter `now`. -/
def Session.isExpired (s : Session) (now : Int) : Bool :=
  decide (s.expiresAt < now)

/-- `updateState(newState)` (session.ts lines 40–42): unconditionally
assigns `this.state = newState`. -/
def Session.updateState (s : Session) (newState : SessionState) : Session :=
  { s with state := newState }

/-- The object literal returned by `toJSON()` (session.ts lines 44–53): only
`sessionID`, `fileName`, `language`, `state`, `createdAt` and `expiresAt`
are emitted; `filePath`, `analysisResult` and `regSessionI` are not.  The
two ISO timestamp strings are modelled by the millisecond values they
denote. -/
structure SessionJSON where
  sessionID : String
  fileName : Option String
  language : Option String
  state : SessionState
  createdAt : Int
  expiresAt : Int
deriving DecidableEq

/-- `toJSON()` (session.ts lines 44–53). -/
def Session.toJSON (s : Session) : SessionJSON :=
  { sessionID := s.sessionID
    fileName := s.fileName
    language := s.language
    state := s.state
    createdAt := s.createdAt
    expiresAt := s.expiresAt }

/-- `Session.fromJSON(json)` (session.ts lines 56–62): spreads the JSON
object into the constructor argument, replacing `createdAt` / `expiresAt`
by reparsed `Date`s (same millisecond value).  A `toJSON` result carries no
`filePath` or `analysisResult` key, so those fields of the constructor
argument are absent. -/
def Session.fromJSON (j : SessionJSON) (fresh : String)
    (nowCreated nowExpiry : Int) : Session :=
  Session.construct
    { sessionID := some j.sessionID
      fileName := j.fileName
      language := j.language
      state := some j.state
      createdAt := some j.createdAt
      expiresAt := some j.expiresAt }
    fresh nowCreated nowExpiry

/-- The longest leading run of decimal digits, as a number; `none` when the
run is empty (JS `parseInt` returns `NaN` then). -/
def parseDigitRun (cs : List Char) : Option Nat :=
  let ds := cs.takeWhile Char.isDigit
  if ds.isEmpty then none
  else some (ds.foldl (fun acc c => acc * 10 + (c.toNat - 48)) 0)

/-- JS `parseInt(s, 10)`: skip leading whitespace, read an optional sign and
the longest leading digit run, ignore anything after it; `NaN` (modelled
`none`) when no digit is found. -/
def jsParseInt (s : String) : Option Int :=
  match s.toList.dropWhile Char.isWhitespace with
  | '-' :: rest => (parseDigitRun rest).map (fun n => -(n : Int))
  | '+' :: rest => (parseDigitRun rest).map (fun n => (n : Int))
  | other => (parseDigitRun other).map (fun n => (n : Int))

/-- `getEnvNumber` (app.config.ts lines 10–13): the environment is a partial
map from keys to strings; an unset or empty value yields the default,
otherwise the `parseInt` result is returned as-is (`none` models `NaN`). -/
def getEnvNumber (env : String → Option String) (key : String)
    (defaultValue : Int) : Option Int :=
  match env key with
  | none => some defaultValue
  | some v => if v = "" then some defaultValue else jsParseInt v

/-- The session-related fields of the `appConfig` object
(app.config.ts lines 43–44); the remaining fields of the object are
irrelevant to the session lifecycle claims. -/
structure AppConfig where
  sessionTimeoutHours : Option Int
  sessionCleanupIntervalHours : Option Int
deriving DecidableEq

/-- `appConfig` (app.config.ts lines 23–67), restricted to the session
configuration, as a function of the process environment. -/
def appConfig (env : String → Option String) : AppConfig :=
  { sessionTimeoutHours := getEnvNumber env "SESSION_TIMEOUT_HOURS" 24
    sessionCleanupIntervalHours :=
      getEnvNumber env "SESSION_CLEANUP_INTERVAL_HOURS" 1 }

/-- A concrete session in the terminal state `completed`, used to exercise
the transition code. -/
def completedSession : Session :=
  { sessionID := "s-1"
    regSessionI := none
    fileName := some "main.py"
    language := some "python"
    state := SessionState.completed
    createdAt := 0
    expiresAt := 24 * 60 * 60 * 1000
    filePath := some "/tmp/x"
    analysisResult := none }

/-- C1.  The claim says a transition not in the table (here: out of the
terminal state `completed`, into `analyzing`) fails with
`InvalidTransitionError` and leaves the record unchanged.  The code has no
transition table: `updateState` unconditionally assigns the new state, so
the illegal transition is performed and the state does change. -/
theorem updateState_performs_illegal_transition :
    completedSession.state = SessionState.completed ∧
    (completedSession.updateState SessionState.analyzing).state
      = SessionState.analyzing :=
  ⟨rfl, rfl⟩

/-- C2.  The claim says construction fails with `ValidationError` exactly
when `fileName` or `language` is empty.  In the code the constructor is
total (it never validates, never fails), and `validate()` is inverted on
`language`: it accepts `("a.go", "")` and rejects the well-formed
`("a.go", "go")`. -/
theorem validate_inverted_on_language :
    (Session.construct { fileName := some "a.go", language := some "" }
        "u-1" 0 0).validate = true ∧
    (Session.construct { fileName := some "a.go", language := some "go" }
        "u-1" 0 0).validate = false :=
  ⟨rfl, rfl⟩

/-- C3 counterexample.  The constructor reads the clock twice; when the
millisecond ticks between line 27 (`createdAt` default) and line 28
(`expiresAt` default) — here `nowCreated = 0`, `nowExpiry = 1` — the
resulting `expiresAt` is `createdAt + 24h + 1`, not `createdAt + 24h`
exactly. -/
theorem construct_expiresAt_skew_counterexample :
    ¬ ((Session.construct { fileName := some "m.py", language := some "python" }
          "u-2" 0 1).expiresAt
        = (Session.construct { fileName := some "m.py", language := some "python" }
            "u-2" 0 1).createdAt + 24 * 60 * 60 * 1000) := by
  decide

/-- C3 amended.  With no `state`/`createdAt`/`expiresAt` overrides, the
constructed session has `state = created`, and whenever the two clock
readings of the constructor coincide (the common case), `expiresAt`
equals `createdAt + 24h` exactly. -/
theorem construct_state_created_and_ttl_exact (data : SessionData)
    (fresh : String) (t : Int) (hs : data.state = none)
    (hc : data.createdAt = none) (he : data.expiresAt = none) :
    (Session.construct data fresh t t).state = SessionState.created ∧
    (Session.construct data fresh t t).expiresAt
      = (Session.construct data fresh t t).createdAt + 24 * 60 * 60 * 1000 := by
  simp [Session.construct, hs, hc, he]

/-- C3 witness: the amended statement at a concrete input. -/
theorem construct_state_created_and_ttl_exact_witness :
    (Session.construct { fileName := some "m.py", language := some "python" }
        "u-3" 5 5).state = SessionState.created ∧
    (Session.construct { fileName := some "m.py", language := some "python" }
        "u-3" 5 5).expiresAt
      = (Session.construct { fileName := some "m.py", language := some "python" }
          "u-3" 5 5).createdAt + 24 * 60 * 60 * 1000 :=
  construct_state_created_and_ttl_exact
    { fileName := some "m.py", language := some "python" } "u-3" 5 rfl rfl rfl

/-- C4.  `isExpired`, evaluated at clock reading `now`, returns `true`
exactly when `now > expiresAt` (strict comparison, as in
`new Date() > this.expiresAt`). -/
theorem isExpired_iff_gt (s : Session) (now : Int) :
    s.isExpired now = true ↔ s.expiresAt < now := by
  simp [Session.isExpired]

/-- C5 counterexample.  At the boundary `now = expiresAt` the expiry check
returns `false`: the record is not treated as expired, contradicting the
claim that `now ≥ expiresAt` is already dead. -/
theorem isExpired_boundary_counterexample :
    Session.isExpired
      { sessionID := "s-2", regSessionI := none, fileName := some "a.py",
        language := some "py", state := SessionState.created,
        createdAt := 0, expiresAt := 100, filePath := none,
        analysisResult := none } 100 = false := by
  decide

/-- C5 amended.  The expiry check treats a record as live up to and
including `now = expiresAt`; only strictly after `expiresAt` does it report
expiry. -/
theorem isExpired_false_upto_boundary (s : Session) (now : Int)
    (h : now ≤ s.expiresAt) : s.isExpired now = false := by
  simp [Session.isExpired]
  omega

/-- C5 witness: the amended statement at the exact boundary of a concrete
record. -/
theorem isExpired_false_upto_boundary_witness :
    Session.isExpired
      { sessionID := "s-3", regSessionI := none, fileName := some "b.py",
        language := some "py", state := SessionState.uploaded,
        createdAt := 0, expiresAt := 200, filePath := none,
        analysisResult := none } 200 = false :=
  isExpired_false_upto_boundary
    { sessionID := "s-3", regSessionI := none, fileName := some "b.py",
      language := some "py", state := SessionState.uploaded,
      createdAt := 0, expiresAt := 200, filePath := none,
      analysisResult := none } 200 (by decide)

/-- C6 counterexample.  `toJSON` omits `filePath` (and `analysisResult`), so
the round trip `fromJSON ∘ toJSON` loses it: a session holding
`filePath = some "/tmp/x"` comes back with `filePath = none`. -/
theorem roundtrip_drops_filePath :
    (Session.fromJSON completedSession.toJSON "u-4" 0 0).filePath
      ≠ completedSession.filePath := by
  decide

/-- C6 amended.  For a session whose `sessionID` is non-empty (every
constructed session), the round trip preserves `sessionID`, `fileName`,
`language`, `state` and the two timestamps exactly at millisecond
precision, while `filePath` and `analysisResult` come back absent. -/
theorem roundtrip_core_fields (s : Session) (fresh : String)
    (nowCreated nowExpiry : Int) (h : s.sessionID ≠ "") :
    (Session.fromJSON s.toJSON fresh nowCreated nowExpiry).sessionID
        = s.sessionID ∧
    (Session.fromJSON s.toJSON fresh nowCreated nowExpiry).fileName
        = s.fileName ∧
    (Session.fromJSON s.toJSON fresh nowCreated nowExpiry).language
        = s.language ∧
    (Session.fromJSON s.toJSON fresh nowCreated nowExpiry).state = s.state ∧
    (Session.fromJSON s.toJSON fresh nowCreated nowExpiry).createdAt
        = s.createdAt ∧
    (Session.fromJSON s.toJSON fresh nowCreated nowExpiry).expiresAt
        = s.expiresAt ∧
    (Session.fromJSON s.toJSON fresh nowCreated nowExpiry).filePath = none ∧
    (Session.fromJSON s.toJSON fresh nowCreated nowExpiry).analysisResult
        = none := by
  simp [Session.fromJSON, Session.toJSON, Session.construct, jsOrString, h]

/-- C6 witness: the amended statement at a concrete session. -/
theorem roundtrip_core_fields_witness :
    (Session.fromJSON completedSession.toJSON "u-5" 7 9).sessionID
        = completedSession.sessionID ∧
    (Session.fromJSON completedSession.toJSON "u-5" 7 9).fileName
        = completedSession.fileName ∧
    (Session.fromJSON completedSession.toJSON "u-5" 7 9).language
        = completedSession.language ∧
    (Session.fromJSON completedSession.toJSON "u-5" 7 9).state
        = completedSession.state ∧
    (Session.fromJSON completedSession.toJSON "u-5" 7 9).createdAt
        = completedSession.createdAt ∧
    (Session.fromJSON completedSession.toJSON "u-5" 7 9).expiresAt
        = completedSession.expiresAt ∧
    (Session.fromJSON completedSession.toJSON "u-5" 7 9).filePath = none ∧
    (Session.fromJSON completedSession.toJSON "u-5" 7 9).analysisResult
        = none :=
  roundtrip_core_fields completedSession "u-5" 7 9 (by decide)

/-- C7 counterexample.  The constructor accepts caller-supplied
`createdAt`/`expiresAt` overrides without any check, so rehydration can
produce `expiresAt < createdAt`, violating the claimed invariant. -/
theorem construct_override_breaks_expiry_invariant :
    ¬ ((Session.construct
          { fileName := some "a.py", language := some "py",
            createdAt := some 100, expiresAt := some 50 } "u-6" 0 0).createdAt
        < (Session.construct
            { fileName := some "a.py", language := some "py",
              createdAt := some 100, expiresAt := some 50 } "u-6" 0 0).expiresAt) := by
  decide

/-- C7 amended.  When neither `createdAt` nor `expiresAt` is overridden and
the clock is monotone across the constructor's two readings,
`expiresAt > createdAt` holds; overrides are accepted unchecked and can
violate it. -/
theorem construct_default_expiry_invariant (data : SessionData)
    (fresh : String) (nowCreated nowExpiry : Int)
    (hc : data.createdAt = none) (he : data.expiresAt = none)
    (h : nowCreated ≤ nowExpiry) :
    (Session.construct data fresh nowCreated nowExpiry).createdAt
      < (Session.construct data fresh nowCreated nowExpiry).expiresAt := by
  simp [Session.construct, hc, he]
  omega

/-- C7 witness: the amended statement at a concrete input. -/
theorem construct_default_expiry_invariant_witness :
    (Session.construct { fileName := some "c.py", language := some "py" }
        "u-7" 3 7).createdAt
      < (Session.construct { fileName := some "c.py", language := some "py" }
          "u-7" 3 7).expiresAt :=
  construct_default_expiry_invariant
    { fileName := some "c.py", language := some "py" } "u-7" 3 7 rfl rfl
    (by decide)

/-- C8 counterexample.  With the environment setting
`SESSION_TIMEOUT_HOURS=-5`, the loader accepts the non-positive value
unchanged into the configuration (there is no validation and no error
path), refuting the claim that it is rejected as a startup error. -/
theorem config_accepts_negative_timeout :
    (appConfig (fun k =>
        if k = "SESSION_TIMEOUT_HOURS" then some "-5" else none)).sessionTimeoutHours
      = some (-5) := by
  decide

/-- C8 amended.  With the environment unset, `sessionTimeoutHours` defaults
to 24 and `sessionCleanupIntervalHours` to 1; a non-positive configured
value (here `SESSION_CLEANUP_INTERVAL_HOURS=0`) is accepted unchanged, not
rejected. -/
theorem config_session_defaults :
    (appConfig (fun _ => none)).sessionTimeoutHours = some 24 ∧
    (appConfig (fun _ => none)).sessionCleanupIntervalHours = some 1 ∧
    (appConfig (fun k =>
        if k = "SESSION_CLEANUP_INTERVAL_HOURS" then some "0"
        else none)).sessionCleanupIntervalHours = some 0 := by
  refine ⟨by decide, by decide, by decide⟩

/-- C9.  The constructor never assigns `this.analysisResult`, so the
constructed session's `analysisResult` is absent for every input — even
when the input datum carries an `analysisResult` value. -/
theorem construct_drops_analysisResult (data : SessionData) (fresh : String)
    (nowCreated nowExpiry : Int) :
    (Session.construct data fresh nowCreated nowExpiry).analysisResult
      = none :=
  rfl

/-- C10.  `updateState` writes only the `state` field: every other field of
the record is unchanged by the call. -/
theorem updateState_frame (s : Session) (newState : SessionState) :
    (s.updateState newState).sessionID = s.sessionID ∧
    (s.updateState newState).regSessionI = s.regSessionI ∧
    (s.updateState newState).fileName = s.fileName ∧
    (s.updateState newState).language = s.language ∧
    (s.updateState newState).createdAt = s.createdAt ∧
    (s.updateState newState).expiresAt = s.expiresAt ∧
    (s.updateState newState).filePath = s.filePath ∧
    (s.updateState newState).analysisResult = s.analysisResult :=
  ⟨rfl, rfl, rfl, rfl, rfl, rfl, rfl, rfl⟩

end CodeReview
